import Mathlib

/-!
Verification development for the ofx2json converter (src/ofx2json.cpp).

The C++ source is shallowly embedded: strings become `List Char`, positions
become structural consumption of the list, `bool f(..., T& out)` out-parameter
functions become `Option`-returning functions, and the stateful container
stack becomes explicit state passing.  Machine-integer accumulators (`int`)
are modelled as `Int` (C++ signed overflow is undefined behaviour; the places
where it could occur are guarded in the source by magnitude checks that fire
first on every input considered here).  The `double` accumulators of
`parse_number` are modelled as `Rat`: both IEEE double and exact rational
arithmetic are monotone under the step `r = r * 10 + digit` for `r ≥ 0`
(rounding is monotone), so the success/failure behaviour of `parse_number`
coincides in the two semantics; only the magnitude of a decoded value can
differ by rounding, and no theorem below relies on a magnitude a double
would round.
-/

namespace Ofx

/-- C `isspace` on the default locale: space, \t, \n, \v, \f, \r. -/
def is_ws (c : Char) : Bool := c.toNat = 32 || (9 ≤ c.toNat && c.toNat ≤ 13)

/-- C `isdigit`. -/
def is_digit (c : Char) : Bool := 48 ≤ c.toNat && c.toNat ≤ 57

/-- `skip_ws` (src line 65): advances past whitespace; returns whether it
moved (`pos > start`) and the remaining input. -/
def skip_ws (l : List Char) : Bool × List Char :=
  ((match l with | [] => false | c :: _ => is_ws c), l.dropWhile is_ws)

/-- `str_lower` (src line 58), `::tolower` on ASCII. -/
def to_lower (c : Char) : Char :=
  if 65 ≤ c.toNat ∧ c.toNat ≤ 90 then Char.ofNat (c.toNat + 32) else c

def str_lower (l : List Char) : List Char := l.map to_lower

/-- `parse_digits` (src line 73) with a fixed `len` argument: consumes exactly
`n` characters, all of which must be digits (a short or non-digit window is
the `return 0` failure).  The accumulator's overflow guard `val < pval` is
kept verbatim; over `Int` it cannot fire for a non-negative accumulator. -/
def parse_digits_fix (acc : Int) : Nat → List Char → Option (Int × List Char)
  | 0, l => some (acc, l)
  | _ + 1, [] => none
  | n + 1, c :: rest =>
    if is_digit c then
      let v := acc * 10 + ((c.toNat - 48 : Nat) : Int)
      if v < acc then none else parse_digits_fix v n rest
    else none

/-- `parse_digits` (src line 73) with `len = npos`: consumes digits until a
non-digit, returning how many were consumed, the value, and the rest.  A
count of 0 is the caller-visible failure.  The overflow guard is kept; it
returns count 0 exactly as the C++ `return 0` does. -/
def parse_digits_var (acc : Int) (count : Nat) : List Char → Nat × Int × List Char
  | [] => (count, acc, [])
  | c :: rest =>
    if is_digit c then
      let v := acc * 10 + ((c.toNat - 48 : Nat) : Int)
      if v < acc then (0, v, c :: rest)
      else parse_digits_var v (count + 1) rest
    else (count, acc, c :: rest)

/-- `struct tm` fields as filled by `parse_datetime`: `tm_year` is the year
minus 1900 and `tm_mon` is 0-based, exactly as in the C library. -/
structure Tm where
  tm_year : Int
  tm_mon : Int
  tm_mday : Int
  tm_hour : Int
  tm_min : Int
  tm_sec : Int
deriving DecidableEq, Repr

/-- The out-parameters of `parse_datetime`.  `msecs` is `none` when the input
has no fractional-second field: the C++ leaves the out-parameter
uninitialized there, and no caller reads it in that case. -/
structure DtOut where
  tm : Tm
  msecs : Option Int
  tzoff_min : Int
deriving DecidableEq, Repr

/-- The digits of the bracketed timezone hour (src lines 149-174): sign
already consumed, `neg` records it.  Mirrors src lines 156-176. -/
def parse_tz_digits (neg : Bool) (l : List Char) : Option Int :=
  let (digs, v, r) := parse_digits_var 0 0 l
  if digs = 0 ∨ v > 12 then none
  else
    let tz := v * 60
    match r with
    | [] => none
    | c :: r2 =>
      let afterFrac : Option (List Char) :=
        if c = '.' then
          match r2 with
          | [] => none
          | _ =>
            let (d2, frac, r3) := parse_digits_var 0 0 r2
            if d2 = 0 ∨ frac ≠ 0 then none else some r3
        else some (c :: r2)
      match afterFrac with
      | none => none
      | some r4 =>
        let tz2 : Int := if neg then -tz else tz
        match r4.dropWhile is_ws with
        | [] => none
        | d :: r5 =>
          let afterName : Option (List Char) :=
            if d = ':' then
              let r6 := r5.dropWhile (fun x => x ≠ ']')
              if r6 = [] then none else some r6
            else some (d :: r5)
          match afterName with
          | none => none
          | some r7 =>
            match r7 with
            | ']' :: r8 => if r8.dropWhile is_ws = [] then some tz2 else none
            | _ => none

/-- The bracketed timezone suffix of `parse_datetime`, src lines 140-197,
starting at the character that must be `[`. -/
def parse_tz (l : List Char) : Option Int :=
  match l with
  | '[' :: r1 =>
    (match r1.dropWhile is_ws with
     | [] => none
     | c :: r3 =>
       if c = '-' ∨ c = '+' then
         match r3 with
         | [] => none
         | _ => parse_tz_digits (c = '-') r3
       else parse_tz_digits false (c :: r3))
  | _ => none

/-- `parse_datetime` (src lines 104-216).  The fixed-width positional reads
of the source (positions 0,4,6,8,10,12, then a scan from 14) become
sequential consumption; the source's comparisons of the total length are
kept as written. -/
def parse_datetime (text : List Char) : Option DtOut :=
  let len := text.length
  if len < 8 then none else
  match parse_digits_fix 0 4 text with
  | none => none
  | some (year, r1) =>
  if year > 9999 then none else
  match parse_digits_fix 0 2 r1 with
  | none => none
  | some (mon, r2) =>
  if mon = 0 ∨ mon > 12 then none else
  match parse_digits_fix 0 2 r2 with
  | none => none
  | some (mday, r3) =>
  if mday = 0 ∨ mday > 31 then none else
  if 14 ≤ len then
    match parse_digits_fix 0 2 r3 with
    | none => none
    | some (hour, r4) =>
    if hour > 23 then none else
    match parse_digits_fix 0 2 r4 with
    | none => none
    | some (minute, r5) =>
    if minute > 59 then none else
    match parse_digits_fix 0 2 r5 with
    | none => none
    | some (sec, r6) =>
    if sec > 60 then none else
    if 18 ≤ len then
      match (match r6 with
             | '.' :: r7 =>
               (match parse_digits_fix 0 3 r7 with
                | none => none
                | some (ms, r8) => some (some ms, r8))
             | _ => some (none, r6) : Option (Option Int × List Char)) with
      | none => none
      | some (msecs, r9) =>
        match r9.dropWhile is_ws with
        | [] => some ⟨⟨year - 1900, mon - 1, mday, hour, minute, sec⟩, msecs, 0⟩
        | c :: r10 =>
          match parse_tz (c :: r10) with
          | none => none
          | some tz => some ⟨⟨year - 1900, mon - 1, mday, hour, minute, sec⟩, msecs, tz⟩
    else if 14 < len then none
    else some ⟨⟨year - 1900, mon - 1, mday, hour, minute, sec⟩, none, 0⟩
  else if 8 < len then none
  else some ⟨⟨year - 1900, mon - 1, mday, 0, 0, 0⟩, none, 0⟩

/-- `parse_number` (src lines 218-265), inner accumulation loop.  `r` and `f`
are the `double` accumulators, modelled as `Rat` (see the file comment); the
overflow guard `r < pr` is kept verbatim. -/
def pn_loop (r f : Rat) (isf : Bool) : List Char → Option Rat
  | [] => some (r * f)
  | ch :: rest =>
    if ch = '.' then
      if isf then none else pn_loop r f true rest
    else if is_digit ch then
      let f2 := if isf then f / 10 else f
      let pr := r
      let r2 := r * 10 + ((ch.toNat - 48 : Nat) : Rat)
      if r2 < pr then none else pn_loop r2 f2 isf rest
    else
      -- break: trailing whitespace only is allowed
      if (skip_ws (ch :: rest)).2 = [] then some (r * f) else none

/-- `parse_number` (src lines 218-265).  The `skip_ws` the source performs
while still standing on the sign character never moves (a sign is not
whitespace) and is omitted. -/
def parse_number (text : List Char) : Option Rat :=
  match (skip_ws text).2 with
  | [] => none
  | ch :: rest =>
    if ch = '-' ∨ ch = '+' then
      match rest with
      | [] => none
      | _ => pn_loop 0 (if ch = '-' then -1 else 1) false rest
    else pn_loop 0 1 false (ch :: rest)

/-- `parse_bool` (src lines 267-282). -/
def parse_bool (text : List Char) : Option Bool :=
  match (skip_ws text).2 with
  | [] => none
  | ch :: rest =>
    if ch = 'Y' ∨ ch = 'y' then
      if (skip_ws rest).2 = [] then some true else none
    else if ch = 'N' ∨ ch = 'n' then
      if (skip_ws rest).2 = [] then some false else none
    else none

/-- Trailing-whitespace trim used by `read_text` (src lines 292-297). -/
def rtrim (l : List Char) : List Char := (l.reverse.dropWhile is_ws).reverse

/-- Digit characters for the rendering helpers. -/
def pad2n (n : Nat) : List Char :=
  [Char.ofNat (48 + n / 10 % 10), Char.ofNat (48 + n % 10)]

/-- `sprintf` with format `%+03d` (src lines 631,633): an explicit sign then
the magnitude zero-padded to two digits (wider magnitudes print in full). -/
def sprintf_plus03 (v : Int) : List Char :=
  (if v < 0 then '-' else '+') ::
    (if v.natAbs < 10 then ['0', Char.ofNat (48 + v.natAbs)]
     else Nat.toDigits 10 v.natAbs)

/-- The rendering of a successfully decoded datetime performed by
`ofx_container::add_datetime` (src lines 620-634): `strftime` with `%FT%T`,
then `Z` for offset zero, otherwise `%+03d:%02d` of hours and minutes of
the offset, the minute part left off when zero.  `tzoff_min / 60` is C
truncating division, `Int.tdiv` here. -/
def render_datetime (tm : Tm) (tzoff_min : Int) : List Char :=
  let date :=
    Nat.toDigits 10 ((tm.tm_year + 1900).toNat)
    ++ '-' :: pad2n ((tm.tm_mon + 1).toNat)
    ++ '-' :: pad2n tm.tm_mday.toNat
    ++ 'T' :: pad2n tm.tm_hour.toNat
    ++ ':' :: pad2n tm.tm_min.toNat
    ++ ':' :: pad2n tm.tm_sec.toNat
  if tzoff_min = 0 then date ++ ['Z']
  else
    let off_min := tzoff_min.natAbs % 60
    if off_min ≠ 0 then
      date ++ sprintf_plus03 (Int.tdiv tzoff_min 60) ++ ':' :: pad2n off_min
    else date ++ sprintf_plus03 (Int.tdiv tzoff_min 60)

/-- The string `ofx_container::add_datetime` (src lines 613-639) stores for
a datetime leaf: the rendered timestamp when decoding succeeds, the raw text
unchanged when it fails. -/
def add_datetime_render (text : List Char) : List Char :=
  match parse_datetime text with
  | some r => render_datetime r.tm r.tzoff_min
  | none => text

/-- Association lookup, the `std::map::find` of the schema tables and the
entity table (keys are unique there, so ordering is irrelevant). -/
def assoc_find {β : Type} (l : List (List Char × β)) (k : List Char) : Option β :=
  match l with
  | [] => none
  | (k2, v) :: rest => if k = k2 then some v else assoc_find rest k

/-- The five named references of `try_xml_decode` (src lines 372-378). -/
def xml_entities : List (List Char × Char) :=
  [(("quot").toList, '"'), (("amp").toList, '&'), (("apos").toList, '\''),
   (("lt").toList, '<'), (("gt").toList, '>')]

/-- `try_xml_decode` (src lines 347-395), fuelled: the source advances `pos`
by at least one character per iteration, so fuel `l.length + 1` (used by
`try_xml_decode`) always suffices.  On `&` the source looks at the next five
characters at most for a `;`; a reference that is unterminated there,
empty, or unknown is copied through literally. -/
def try_xml_decode_fuel : Nat → List Char → List Char
  | 0, l => l
  | _ + 1, [] => []
  | fuel + 1, c :: rest =>
    if c = '&' then
      let pre := rest.take 5
      let entity := pre.takeWhile (fun x => x ≠ ';')
      if entity.length < pre.length ∧ entity ≠ [] then
        match assoc_find xml_entities entity with
        | some ch => ch :: try_xml_decode_fuel fuel (rest.drop (entity.length + 1))
        | none => c :: try_xml_decode_fuel fuel rest
      else c :: try_xml_decode_fuel fuel rest
    else c :: try_xml_decode_fuel fuel rest

def try_xml_decode (l : List Char) : List Char :=
  try_xml_decode_fuel (l.length + 1) l

/-- The character class terminating a bare name or unquoted attribute value
(src line 313). -/
def name_delim (c : Char) : Bool :=
  is_ws c || c = '<' || c = '>' || c = '/' || c = '=' || c = '"'

/-- `read_name` (src lines 308-324): appends to the already-accumulated
`txt` (which holds a leading `/` for close events) and succeeds iff the
total is non-empty. -/
def read_name (txt : List Char) (l : List Char) : Option (List Char × List Char) :=
  let t := l.takeWhile (fun c => !name_delim c)
  let r := l.dropWhile (fun c => !name_delim c)
  if txt ++ t = [] then none else some (txt ++ t, r)

/-- `read_attrval` (src lines 326-345). -/
def read_attrval (quoted : Bool) (l : List Char) : Option (List Char × List Char) :=
  if quoted then
    let t := l.takeWhile (fun c => c ≠ '"')
    let r := l.dropWhile (fun c => c ≠ '"')
    if r = [] then none           -- input exhausted before the closing quote
    else if t = [] then none      -- empty quoted value
    else some (t, r)              -- r starts at the closing quote, not consumed
  else read_name [] l

/-- `read_text` (src lines 284-306): leading whitespace skipped, raw text up
to (not including) the next `<` or `>`, trailing whitespace trimmed; end of
input before a terminator is a failure. -/
def read_text (l : List Char) : Option (List Char × List Char) :=
  let s1 := (skip_ws l).2
  let t := s1.takeWhile (fun c => c ≠ '<' ∧ c ≠ '>')
  let r := s1.dropWhile (fun c => c ≠ '<' ∧ c ≠ '>')
  if r = [] then none else some (rtrim t, r)

/-- One structural event of the tokenizer (§3 of the spec): `name` carries a
leading `/` for close events. -/
structure Ev where
  name : List Char
  attrs : List (List Char × List Char)
  text : List Char
deriving DecidableEq, Repr

/-- `std::map::insert` keeps the first binding for a key. -/
def attrs_insert (acc : List (List Char × List Char)) (k v : List Char) :
    List (List Char × List Char) :=
  match assoc_find acc k with
  | some _ => acc
  | none => acc ++ [(k, v)]

/-- The optional `= value` part of one attribute (src lines 441-458),
starting at the position after the attribute name's trailing whitespace:
an `=` is followed by an optionally quoted value (a quoted value must be
non-empty and must reach its closing quote); without `=` the attribute
value is the empty string. -/
def attr_value_step (s : List Char) : Option (List Char × List Char) :=
  if s.head? = some '=' then
    let s2 := (skip_ws s.tail).2
    match s2 with
    | [] => none
    | _ =>
      let quoted := s2.head? = some '"'
      let s3 := if quoted then s2.tail else s2
      match read_attrval quoted s3 with
      | none => none
      | some (v, r3) =>
        if quoted then
          match r3 with
          | '"' :: r4 => some (v, r4)
          | _ => none
        else some (v, r3)
  else some ([], s)

/-- The attribute do-while loop of `iterate_elements` (src lines 430-461).
Each iteration consumes at least one character (`read_name` refuses an empty
name), so the fuel `l.length + 1` passed by `next_element` always suffices;
running out of fuel is unreachable. -/
def attr_loop (fuel : Nat) (acc : List (List Char × List Char)) (l : List Char) :
    Option (List (List Char × List Char) × List Char) :=
  match fuel with
  | 0 => none
  | fuel + 1 =>
    if l.head? = some '>' ∨ l.head? = some '/' then some (acc, l)
    else
      match read_name [] l with
      | none => none
      | some (at_name, r1) =>
        let s := (skip_ws r1).2
        match s with
        | [] => none
        | _ =>
          match attr_value_step s with
          | none => none
          | some (at_val, r2) =>
            let s4 := (skip_ws r2).2
            let acc2 := attrs_insert acc at_name (try_xml_decode at_val)
            if s4 = [] then some (acc2, [])      -- do-while condition fails
            else attr_loop fuel acc2 s4

/-- One iteration of the `iterate_elements` while loop (src lines 400-488):
parse one element.  `none` is a structural parse failure; `some (none, r)`
is the clean loop exit at end of input; `some (some (ev, simple), r)` is a
parsed event together with the self-closing flag.  The source's guard
`str.size() > 1` before the self-closing check is on the whole input string
and is always true at that point (at least `<` and one name character
precede), so it is not represented. -/
def next_element (str : List Char) : Option (Option (Ev × Bool) × List Char) :=
  match (skip_ws str).2 with
  | [] => some (none, [])
  | c :: rest =>
    if c = '<' then
      match (skip_ws rest).2 with
      | [] => none
      | s2 =>
        if s2.head? = some '/' then
          match (skip_ws s2.tail).2 with
          | [] => none
          | s3 =>
            match read_name [ '/' ] s3 with
            | none => none
            | some (el_name, s4) =>
              match (skip_ws s4).2 with
              | '>' :: s6 => some (some (⟨el_name, [], []⟩, false), s6)
              | _ => none
        else
          match read_name [] s2 with
          | none => none
          | some (el_name, s4) =>
            let (advanced, s5) := skip_ws s4
            match (if advanced then attr_loop (s5.length + 1) [] s5
                   else some ([], s5)) with
            | none => none
            | some (el_attrs, s6) =>
              match s6 with
              | [] => none
              | _ =>
                let simple := s6.head? = some '/'
                let s7 := if simple then s6.tail else s6
                match (skip_ws s7).2 with
                | '>' :: s9 =>
                  if simple then some (some (⟨el_name, el_attrs, []⟩, true), s9)
                  else
                    match read_text s9 with
                    | none => none
                    | some (txt, s10) => some (some (⟨el_name, el_attrs, txt⟩, false), s10)
                | _ => none
    else none

/-- `ofx_cont::serialize_as` (src lines 532-539). -/
inductive serialize_as where
  | nothing
  | object
  | object_in_array
  | object_with_name_in_array
  | array
deriving DecidableEq, Repr

/-- `ofx_cont::tag_fmt` (src lines 541-547). -/
inductive tag_fmt where
  | string
  | number
  | boolean
  | datetime
deriving DecidableEq, Repr

/-- `ofx_cont` (src lines 530-552): a schema node.  The C++ `sub` map holds
non-owning pointers into the static table; here child nodes are inlined,
which identifies pointer-shared nodes with equal values (the builder only
ever reads them). -/
inductive ofx_cont where
  | mk (serialize : serialize_as) (sub : List (List Char × ofx_cont))
      (tags : List (List Char × tag_fmt))

def ofx_cont.serialize : ofx_cont → serialize_as
  | .mk s _ _ => s

def ofx_cont.sub : ofx_cont → List (List Char × ofx_cont)
  | .mk _ s _ => s

def ofx_cont.tags : ofx_cont → List (List Char × tag_fmt)
  | .mk _ _ t => t

/-- The logical shape of a rapidjson value as this program builds it. -/
inductive JValue where
  | str (s : List Char)
  | num (q : Rat)
  | bool (b : Bool)
  | obj (members : List (List Char × JValue))
  | arr (elems : List JValue)

/-- `rapidjson::Value::AddMember`: appends a member (rapidjson does not
deduplicate keys).  On a non-object this is an assertion failure in
rapidjson; the schema table never leads the program there, and the model
leaves the value unchanged. -/
def add_member (k : List Char) (x : JValue) : JValue → JValue
  | .obj ms => .obj (ms ++ [(k, x)])
  | v => v

/-- `rapidjson::Value::PushBack`; same remark as `add_member`. -/
def push_back (x : JValue) : JValue → JValue
  | .arr xs => .arr (xs ++ [x])
  | v => v

/-- `ofx_container` (src lines 554-725): one stack frame.  `val = none`
models the constructor's default branch (serialize `nothing`): the C++
`shared_ptr` then aliases the value of the nearest frame below that owns
one, or the document; mutation through the alias is modelled by
`add_to_stack` walking down. -/
structure ofx_container where
  name_ : List Char
  cont_ : ofx_cont
  val : Option JValue
  tags_ : List (List Char × List Char)

/-- `process_ctx` (src lines 508-528): the document value and the container
stack, front = top. -/
structure process_ctx where
  doc_ : JValue
  ostack_ : List ofx_container

/-- Apply a mutation to the value the top of the stack aliases: the top
frame's own value if it has one, else the nearest owner below, else the
document. -/
def add_to_stack (f : JValue → JValue) : List ofx_container → JValue →
    List ofx_container × JValue
  | [], doc => ([], f doc)
  | fr :: rest, doc =>
    match fr.val with
    | some v => ({ fr with val := some (f v) } :: rest, doc)
    | none =>
      let (rest2, doc2) := add_to_stack f rest doc
      (fr :: rest2, doc2)

/-- `ofx_container`'s constructor (src lines 562-581). -/
def mk_container (name : List Char) (cont : ofx_cont) : ofx_container :=
  { name_ := name, cont_ := cont,
    val := match cont.serialize with
      | .object | .object_in_array | .object_with_name_in_array => some (.obj [])
      | .array => some (.arr [])
      | .nothing => none,
    tags_ := [] }

/-- `ofx_container::done` (src lines 583-611): fold the closed frame's value
into its parent per serialize mode.  `below` is the stack without the frame;
an empty `below` is the root (no parent, no folding). -/
def container_done (fr : ofx_container) (below : List ofx_container) (doc : JValue) :
    List ofx_container × JValue :=
  match below with
  | [] => ([], doc)
  | _ =>
    match fr.val, fr.cont_.serialize with
    | some v, .object => add_to_stack (add_member (str_lower fr.name_) v) below doc
    | some v, .array => add_to_stack (add_member (str_lower fr.name_) v) below doc
    | some v, .object_in_array => add_to_stack (push_back v) below doc
    | some v, .object_with_name_in_array =>
        add_to_stack (push_back (.obj [(str_lower fr.name_, v)])) below doc
    | _, _ => (below, doc)

/-- Scan a pending-tag list from the most recently added entry backward
(the list reversed), removing entries, until one equals the close tag
(removed as well) or the list is exhausted: the while loop of
`ofx_container::handle_close` (src lines 709-716). -/
def scan_back (c : List Char) : List (List Char × List Char) →
    Bool × List (List Char × List Char)
  | [] => (false, [])
  | t :: rest => if t.1 = c then (true, rest) else scan_back c rest

/-- `ofx_container::handle_close` (src lines 707-724): returns (return
value, `container_done`, the mutated pending-tag list). -/
def handle_close (close_tag name : List Char)
    (tags : List (List Char × List Char)) :
    Bool × Bool × List (List Char × List Char) :=
  let (found, restRev) := scan_back close_tag tags.reverse
  let tags2 := restRev.reverse
  if tags2 = [] ∧ close_tag = name then (true, true, tags2)
  else (found, false, tags2)

/-- Result of one handler invocation: `ok` continues, `err` is the handler
returning `false` (aborting `iterate_elements`), `abort` is the process
`abort()` in `add_number`/`add_bool` on a decode failure.  `err` carries the
state because the C++ mutates the document in place and the driver's
failure path still exposes it. -/
inductive HRes where
  | ok (st : process_ctx)
  | err (st : process_ctx)
  | abort

/-- Attach a decoded leaf value to the current container's value
(`add_string`/`add_number`/`add_bool`/`add_datetime`, src lines 613-670). -/
def add_value (st : process_ctx) (k : List Char) (x : JValue) : process_ctx :=
  let (stack2, doc2) := add_to_stack (add_member k x) st.ostack_ st.doc_
  ⟨doc2, stack2⟩

/-- Append to the top frame's pending-tag list (the `tags_.push_back` of
`handle_tag`, src line 702). -/
def push_pending (st : process_ctx) (elem text : List Char) : process_ctx :=
  match st.ostack_ with
  | [] => st
  | fr :: rest => ⟨st.doc_, { fr with tags_ := fr.tags_ ++ [(elem, text)] } :: rest⟩

/-- `ofx_container::handle_tag` (src lines 672-705) on the current top of
stack: a child container pushes a new frame; a declared leaf decodes and
attaches (a number or boolean decode failure is the process `abort()`, a
datetime decode failure degrades to the raw string); anything else is only
reported on the diagnostics channel.  Every non-child tag is appended to
the pending-tag list.  The attributes are ignored, as in the source.  An
empty stack cannot occur (the source asserts); it maps to `err`. -/
def handle_tag_event (st : process_ctx) (element : List Char)
    (_attrs : List (List Char × List Char)) (text : List Char) : HRes :=
  match st.ostack_ with
  | [] => .err st
  | fr :: _ =>
    match assoc_find fr.cont_.sub element with
    | some child => .ok ⟨st.doc_, mk_container element child :: st.ostack_⟩
    | none =>
      match assoc_find fr.cont_.tags element with
      | some fmt =>
        match fmt with
        | .string =>
            .ok (push_pending (add_value st (str_lower element) (.str text)) element text)
        | .number =>
            match parse_number text with
            | some v => .ok (push_pending (add_value st (str_lower element) (.num v)) element text)
            | none => .abort
        | .boolean =>
            match parse_bool text with
            | some b => .ok (push_pending (add_value st (str_lower element) (.bool b)) element text)
            | none => .abort
        | .datetime =>
            .ok (push_pending (add_value st (str_lower element) (.str (add_datetime_render text))) element text)
      | none => .ok (push_pending st element text)

/-- The close-event half of the driver's handler lambda (src lines
1564-1587): resolve the close against the top frame; on `container_done`
fold via `done()` and pop; a failed resolution is the handler returning
`false`; a close with an empty stack likewise. -/
def handle_close_event (st : process_ctx) (close_tag : List Char) : HRes :=
  match st.ostack_ with
  | [] => .err st
  | fr :: rest =>
    match handle_close close_tag fr.name_ fr.tags_ with
    | (found, done_, tags2) =>
      let fr2 := { fr with tags_ := tags2 }
      if done_ then
        let (rest2, doc2) := container_done fr2 rest st.doc_
        .ok ⟨doc2, rest2⟩
      else if found then .ok ⟨st.doc_, fr2 :: rest⟩
      else .err ⟨st.doc_, fr2 :: rest⟩

/-- Result of the tokenizer/builder loop: `ok` is `iterate_elements`
returning `true`, `fail` is it returning `false` (structural parse failure
or handler failure), `abort` is the process dying inside a handler. -/
inductive IterRes where
  | ok (st : process_ctx)
  | fail (st : process_ctx)
  | abort

/-- The driver's handler lambda (src lines 1556-1591): open events go to
`handle_tag`, close events (leading `/`) to `handle_close`. -/
def handle_element (st : process_ctx) (ev : Ev) : HRes :=
  if ev.name.head? = some '/' then handle_close_event st ev.name.tail
  else handle_tag_event st ev.name ev.attrs ev.text

/-- `iterate_elements` (src lines 397-504) instantiated with the driver's
handler, fuelled: each iteration consumes at least one input character
(`c9_termination` below), so the fuel `str.length + 1` that
`iterate_elements` passes always suffices and the fuel-exhaustion branch is
unreachable.  A close event named `/OFX` stops the whole scan successfully
before reaching the handler; a self-closing element is delivered as an open
event followed by a synthetic close, with no such stop check. -/
def iterate_fuel : Nat → List Char → process_ctx → IterRes
  | 0, _, st => .fail st
  | fuel + 1, str, st =>
    match next_element str with
    | none => .fail st
    | some (none, _) => .ok st
    | some (some (ev, simple), rest) =>
      if ev.name = ("/OFX").toList then .ok st
      else
        match handle_element st ev with
        | .err st2 => .fail st2
        | .abort => .abort
        | .ok st2 =>
          if simple then
            match handle_element st2 ⟨'/' :: ev.name, ev.attrs, []⟩ with
            | .err st3 => .fail st3
            | .abort => .abort
            | .ok st3 => iterate_fuel fuel rest st3
          else iterate_fuel fuel rest st2

def iterate_elements (str : List Char) (st : process_ctx) : IterRes :=
  iterate_fuel (str.length + 1) str st

/-!
The static schema table (src lines 727-1547), transcribed node for node in
the source's order.  It is pure data consumed by the builder.
-/

def ofx_status : ofx_cont :=
  .mk .object
    []
    [(("CODE").toList, .string),
     (("SEVERITY").toList, .string),
     (("MESSAGE").toList, .string)]

def ofx_signon_sonrs_fi : ofx_cont :=
  .mk .object
    []
    [(("ORG").toList, .string),
     (("FID").toList, .string)]

def ofx_signon_sonrs : ofx_cont :=
  .mk .object
    [(("STATUS").toList, ofx_status),
     (("FI").toList, ofx_signon_sonrs_fi)]
    [(("DTSERVER").toList, .datetime),
     (("DTPROFUP").toList, .datetime),
     (("LANGUAGE").toList, .string),
     (("SESSCOOKIE").toList, .string)]

def ofx_signonmsgsrsv1 : ofx_cont :=
  .mk .object
    [(("SONRS").toList, ofx_signon_sonrs)]
    []

def ofx_signupmsgsrsv1 : ofx_cont :=
  .mk .object
    []
    []

def ofx_investment_entry_status : ofx_cont :=
  .mk .object
    []
    [(("CODE").toList, .string),
     (("SEVERITY").toList, .string)]

def ofx_invacctfrom : ofx_cont :=
  .mk .object
    []
    [(("BROKERID").toList, .string),
     (("ACCTID").toList, .string)]

def ofx_currency : ofx_cont :=
  .mk .object
    []
    [(("CURRATE").toList, .string),
     (("CURSYM").toList, .string)]

def ofx_escrwamt : ofx_cont :=
  .mk .object
    []
    [(("ESCRWTOTAL").toList, .number),
     (("ESCRWTAX").toList, .number),
     (("ESCRWINS").toList, .number),
     (("ESCRWPMI").toList, .number),
     (("ESCRWFEES").toList, .number),
     (("ESCRWOTHER").toList, .number)]

def ofx_payee : ofx_cont :=
  .mk .object
    []
    [(("NAME").toList, .string),
     (("ADDR1").toList, .string),
     (("ADDR2").toList, .string),
     (("ADDR3").toList, .string),
     (("CITY").toList, .string),
     (("STATE").toList, .string),
     (("POSTALCODE").toList, .string),
     (("COUNTRY").toList, .string),
     (("PHONE").toList, .string)]

def ofx_bankacctto : ofx_cont :=
  .mk .object
    []
    [(("BANKID").toList, .string),
     (("BRANCHID").toList, .string),
     (("ACCTID").toList, .string),
     (("ACCTTYPE").toList, .string),
     (("ACCTKEY").toList, .string)]

def ofx_ccacct_fromorto : ofx_cont :=
  .mk .object
    []
    [(("ACCTID").toList, .string),
     (("ACCTKEY").toList, .string)]

def ofx_loanpmtinfo : ofx_cont :=
  .mk .object
    [(("ESCRWAMT").toList, ofx_escrwamt)]
    [(("PRINAMT").toList, .number),
     (("INTAMT").toList, .number),
     (("INSURANCE").toList, .number),
     (("LATEFEEAMT").toList, .number),
     (("OTHERAMT").toList, .number)]

def ofx_imagedata : ofx_cont :=
  .mk .object
    []
    [(("IMAGETYPE").toList, .string),
     (("IMAGEREF").toList, .string),
     (("IMAGEREFTYPE").toList, .string),
     (("IMAGEDELAY").toList, .string),
     (("DTIMAGEAVAIL").toList, .string),
     (("IMAGETTL").toList, .string),
     (("CHECKSUP").toList, .string)]

def ofx_stmttrn : ofx_cont :=
  .mk .object
    [(("LOANPMTINFO").toList, ofx_loanpmtinfo),
     (("PAYEE").toList, ofx_payee),
     (("BANKACCTTO").toList, ofx_bankacctto),
     (("CCACCTTO").toList, ofx_ccacct_fromorto),
     (("IMAGEDATA").toList, ofx_imagedata),
     (("CURRENCY").toList, ofx_currency),
     (("ORIGCURRENCY").toList, ofx_currency)]
    [(("TRNTYPE").toList, .string),
     (("DTPOSTED").toList, .datetime),
     (("DTUSER").toList, .datetime),
     (("DTAVAIL").toList, .datetime),
     (("TRNAMT").toList, .number),
     (("FITID").toList, .string),
     (("CORRECTFITID").toList, .string),
     (("CORRECTACTION").toList, .string),
     (("SRVRTID").toList, .string),
     (("CHECKNUM").toList, .string),
     (("REFNUM").toList, .string),
     (("SIC").toList, .string),
     (("PAYEEID").toList, .string),
     (("NAME").toList, .string),
     (("EXTDNAME").toList, .string),
     (("MEMO").toList, .string),
     (("INV401KSOURCE").toList, .string)]

def ofx_secid : ofx_cont :=
  .mk .object
    []
    [(("UNIQUEID").toList, .string),
     (("UNIQUEIDTYPE").toList, .string)]

def ofx_invtran : ofx_cont :=
  .mk .object
    []
    [(("FITID").toList, .string),
     (("SRVRTID").toList, .string),
     (("DTTRADE").toList, .datetime),
     (("DTSETTLE").toList, .datetime),
     (("REVERSALFITID").toList, .string),
     (("MEMO").toList, .string)]

def ofx_invbuy : ofx_cont :=
  .mk .object
    [(("INVTRAN").toList, ofx_invtran),
     (("SECID").toList, ofx_secid)]
    [(("UNITS").toList, .number),
     (("UNITPRICE").toList, .number),
     (("TOTAL").toList, .number),
     (("SUBACCTSEC").toList, .string),
     (("SUBACCTFUND").toList, .string)]

def ofx_invsell : ofx_cont :=
  .mk .object
    [(("INVTRAN").toList, ofx_invtran),
     (("SECID").toList, ofx_secid),
     (("CURRENCY").toList, ofx_currency),
     (("ORIGCURRENCY").toList, ofx_currency)]
    [(("UNITS").toList, .number),
     (("UNITPRICE").toList, .number),
     (("MARKDOWN").toList, .number),
     (("COMMISSION").toList, .number),
     (("TAXES").toList, .number),
     (("FEES").toList, .number),
     (("LOAD").toList, .number),
     (("WITHHOLDING").toList, .number),
     (("TAXEXEMPT").toList, .boolean),
     (("TOTAL").toList, .number),
     (("GAIN").toList, .number),
     (("SUBACCTSEC").toList, .string),
     (("SUBACCTFUND").toList, .string),
     (("LOANID").toList, .string),
     (("STATEWITHHOLDING").toList, .number),
     (("PENALTY").toList, .number),
     (("INV401KSOURCE").toList, .string)]

def ofx_invstmttrnrs_invstmtrs_invtranlist_invbanktran : ofx_cont :=
  .mk .object
    [(("STMTTRN").toList, ofx_stmttrn)]
    [(("SUBACCTFUND").toList, .string)]

def ofx_selldebt : ofx_cont :=
  .mk .object
    [(("INVSELL").toList, ofx_invsell)]
    [(("SELLREASON").toList, .string),
     (("ACCRDINT").toList, .number)]

def ofx_sellmf : ofx_cont :=
  .mk .object
    [(("INVSELL").toList, ofx_invsell)]
    [(("SELLTYPE").toList, .string),
     (("AVGCOSTBASIS").toList, .number),
     (("RELFITID").toList, .string)]

def ofx_sellopt : ofx_cont :=
  .mk .object
    [(("INVSELL").toList, ofx_invsell)]
    [(("OPTSELLTYPE").toList, .string),
     (("SHPERCTRCT").toList, .number),
     (("RELFITID").toList, .string),
     (("RELTYPE").toList, .string),
     (("SECURED").toList, .string)]

def ofx_sellother : ofx_cont :=
  .mk .object
    [(("INVSELL").toList, ofx_invsell)]
    []

def ofx_sellstock : ofx_cont :=
  .mk .object
    [(("INVSELL").toList, ofx_invsell)]
    [(("SELLTYPE").toList, .string)]

def ofx_buydebt : ofx_cont :=
  .mk .object
    [(("INVBUY").toList, ofx_invbuy)]
    [(("ACCRDINT").toList, .string)]

def ofx_buymf : ofx_cont :=
  .mk .object
    [(("INVBUY").toList, ofx_invbuy)]
    [(("BUYTYPE").toList, .string),
     (("RELFITID").toList, .string)]

def ofx_buyopt : ofx_cont :=
  .mk .object
    [(("INVBUY").toList, ofx_invbuy)]
    [(("OPTBUYTYPE").toList, .string),
     (("SHPERCTRCT").toList, .number)]

def ofx_buyother : ofx_cont :=
  .mk .object
    [(("INVBUY").toList, ofx_invbuy)]
    []

def ofx_buystock : ofx_cont :=
  .mk .object
    [(("INVBUY").toList, ofx_invbuy)]
    [(("BUYTYPE").toList, .string)]

def ofx_closureopt : ofx_cont :=
  .mk .object
    [(("INVTRAN").toList, ofx_invtran),
     (("SECID").toList, ofx_secid)]
    [(("OPTACTION").toList, .string),
     (("UNITS").toList, .number),
     (("SHPERCTRCT").toList, .number),
     (("SUBACCTSEC").toList, .string),
     (("RELFITID").toList, .string),
     (("GAIN").toList, .number)]

def ofx_income : ofx_cont :=
  .mk .object
    [(("INVTRAN").toList, ofx_invtran),
     (("SECID").toList, ofx_secid),
     (("CURRENCY").toList, ofx_currency),
     (("ORIGCURRENCY").toList, ofx_currency)]
    [(("INCOMETYPE").toList, .string),
     (("TOTAL").toList, .number),
     (("SUBACCTSEC").toList, .string),
     (("SUBACCTFUND").toList, .string),
     (("TAXEXEMPT").toList, .boolean),
     (("WITHHOLDING").toList, .number),
     (("INV401KSOURCE").toList, .string)]

def ofx_invexpense : ofx_cont :=
  .mk .object
    [(("INVTRAN").toList, ofx_invtran),
     (("SECID").toList, ofx_secid),
     (("CURRENCY").toList, ofx_currency),
     (("ORIGCURRENCY").toList, ofx_currency)]
    [(("TOTAL").toList, .number),
     (("SUBACCTSEC").toList, .string),
     (("SUBACCTFUND").toList, .string),
     (("INV401KSOURCE").toList, .string)]

def ofx_jrnlfund : ofx_cont :=
  .mk .object
    [(("INVTRAN").toList, ofx_invtran)]
    [(("SUBACCTTO").toList, .string),
     (("SUBACCTFROM").toList, .string),
     (("TOTAL").toList, .number)]

def ofx_jrnlsec : ofx_cont :=
  .mk .object
    [(("INVTRAN").toList, ofx_invtran),
     (("SECID").toList, ofx_secid)]
    [(("SUBACCTTO").toList, .string),
     (("SUBACCTFROM").toList, .string),
     (("UNITS").toList, .number)]

def ofx_margininterest : ofx_cont :=
  .mk .object
    [(("INVTRAN").toList, ofx_invtran),
     (("CURRENCY").toList, ofx_currency),
     (("ORIGCURRENCY").toList, ofx_currency)]
    [(("TOTAL").toList, .number),
     (("SUBACCTFUND").toList, .string)]

def ofx_reinvest : ofx_cont :=
  .mk .object
    [(("INVTRAN").toList, ofx_invtran),
     (("SECID").toList, ofx_secid),
     (("CURRENCY").toList, ofx_currency),
     (("ORIGCURRENCY").toList, ofx_currency)]
    [(("INCOMETYPE").toList, .string),
     (("TOTAL").toList, .number),
     (("SUBACCTSEC").toList, .string),
     (("UNITS").toList, .number),
     (("UNITPRICE").toList, .number),
     (("COMMISSION").toList, .number),
     (("TAXES").toList, .number),
     (("FEES").toList, .number),
     (("LOAD").toList, .number),
     (("TAXEXEMPT").toList, .boolean),
     (("INV401KSOURCE").toList, .string)]

def ofx_retofcap : ofx_cont :=
  .mk .object
    [(("INVTRAN").toList, ofx_invtran),
     (("SECID").toList, ofx_secid),
     (("CURRENCY").toList, ofx_currency),
     (("ORIGCURRENCY").toList, ofx_currency)]
    [(("SUBACCTSEC").toList, .string),
     (("SUBACCTFUND").toList, .string),
     (("UNITS").toList, .number),
     (("INV401KSOURCE").toList, .string)]

def ofx_split : ofx_cont :=
  .mk .object
    [(("INVTRAN").toList, ofx_invtran),
     (("SECID").toList, ofx_secid),
     (("CURRENCY").toList, ofx_currency),
     (("ORIGCURRENCY").toList, ofx_currency)]
    [(("SUBACCTSEC").toList, .string),
     (("OLDUNITS").toList, .number),
     (("NEWUNITS").toList, .number),
     (("NUMERATOR").toList, .number),
     (("DENOMINATOR").toList, .number),
     (("FRACCASH").toList, .number),
     (("SUBACCTFUND").toList, .string),
     (("INV401KSOURCE").toList, .string)]

def ofx_transfer : ofx_cont :=
  .mk .object
    [(("INVTRAN").toList, ofx_invtran),
     (("SECID").toList, ofx_secid),
     (("INVACCTFROM").toList, ofx_invacctfrom)]
    [(("SUBACCTSEC").toList, .string),
     (("UNITS").toList, .number),
     (("TFERACTION").toList, .string),
     (("POSTYPE").toList, .string),
     (("AVGCOSTBASIS").toList, .number),
     (("UNITPRICE").toList, .number),
     (("DTPURCHASE").toList, .datetime),
     (("INV401KSOURCE").toList, .string)]

def ofx_invstmttrnrs_invstmtrs_invtranlist : ofx_cont :=
  .mk .object
    [(("INVBANKTRAN").toList, ofx_invstmttrnrs_invstmtrs_invtranlist_invbanktran),
     (("BUYDEBT").toList, ofx_buydebt),
     (("BUYMF").toList, ofx_buymf),
     (("BUYOPT").toList, ofx_buyopt),
     (("BUYOTHER").toList, ofx_buyother),
     (("BUYSTOCK").toList, ofx_buystock),
     (("CLOSUREOPT").toList, ofx_closureopt),
     (("INCOME").toList, ofx_income),
     (("INVEXPENSE").toList, ofx_invexpense),
     (("JRNLFUND").toList, ofx_jrnlfund),
     (("JRNLSEC").toList, ofx_jrnlsec),
     (("MARGININTEREST").toList, ofx_margininterest),
     (("REINVEST").toList, ofx_reinvest),
     (("RETOFCAP").toList, ofx_retofcap),
     (("SELLDEBT").toList, ofx_selldebt),
     (("SELLMF").toList, ofx_sellmf),
     (("SELLOPT").toList, ofx_sellopt),
     (("SELLOTHER").toList, ofx_sellother),
     (("SELLSTOCK").toList, ofx_sellstock),
     (("SPLIT").toList, ofx_split),
     (("TRANSFER").toList, ofx_transfer)]
    [(("DTSTART").toList, .datetime),
     (("DTEND").toList, .datetime)]

def ofx_invpos : ofx_cont :=
  .mk .object
    [(("SECID").toList, ofx_secid),
     (("CURRENCY").toList, ofx_currency)]
    [(("HELDINACCT").toList, .string),
     (("POSTYPE").toList, .string),
     (("UNITS").toList, .number),
     (("UNITPRICE").toList, .number),
     (("MKTVAL").toList, .number),
     (("AVGCOSTBASIS").toList, .number),
     (("DTPRICEASOF").toList, .datetime),
     (("MEMO").toList, .string),
     (("INV401KSOURCE").toList, .string)]

def ofx_posdebt : ofx_cont :=
  .mk .object
    [(("INVPOS").toList, ofx_invpos)]
    []

def ofx_posmf : ofx_cont :=
  .mk .object
    [(("INVPOS").toList, ofx_invpos)]
    [(("UNITSSTREET").toList, .number),
     (("UNITSUSER").toList, .number),
     (("REINVDIV").toList, .boolean),
     (("REINVCG").toList, .boolean)]

def ofx_posopt : ofx_cont :=
  .mk .object
    [(("INVPOS").toList, ofx_invpos)]
    [(("SECURED").toList, .string)]

def ofx_posother : ofx_cont :=
  .mk .object
    [(("INVPOS").toList, ofx_invpos)]
    []

def ofx_posstock : ofx_cont :=
  .mk .object
    [(("INVPOS").toList, ofx_invpos)]
    [(("UNITSSTREET").toList, .number),
     (("UNITSUSER").toList, .number),
     (("REINVDIV").toList, .boolean)]

def ofx_invstmttrnrs_invstmtrs_invposlist : ofx_cont :=
  .mk .object
    [(("POSMF").toList, ofx_posmf),
     (("POSSTOCK").toList, ofx_posstock),
     (("POSDEBT").toList, ofx_posdebt),
     (("POSOPT").toList, ofx_posopt),
     (("POSOTHER").toList, ofx_posother)]
    []

def ofx_invstmttrnrs_invstmtrs_invbal : ofx_cont :=
  .mk .object
    []
    [(("AVAILCASH").toList, .number),
     (("MARGINBALANCE").toList, .number),
     (("SHORTBALANCE").toList, .number)]

def ofx_invstmttrnrs_invstmtrs : ofx_cont :=
  .mk .object
    [(("INVACCTFROM").toList, ofx_invacctfrom),
     (("INVTRANLIST").toList, ofx_invstmttrnrs_invstmtrs_invtranlist),
     (("INVPOSLIST").toList, ofx_invstmttrnrs_invstmtrs_invposlist),
     (("INVBAL").toList, ofx_invstmttrnrs_invstmtrs_invbal)]
    [(("DTASOF").toList, .datetime),
     (("CURDEF").toList, .string),
     (("MKTGINFO").toList, .string)]

def ofx_invstmtmsgsrsv1_invstmttrnrs : ofx_cont :=
  .mk .object_with_name_in_array
    [(("STATUS").toList, ofx_status),
     (("INVSTMTRS").toList, ofx_invstmttrnrs_invstmtrs)]
    [(("TRNUID").toList, .string),
     (("CLTCOOKIE").toList, .string)]

def ofx_invstmtmsgsrsv1 : ofx_cont :=
  .mk .array
    [(("INVSTMTTRNRS").toList, ofx_invstmtmsgsrsv1_invstmttrnrs)]
    []

def ofx_secinfo : ofx_cont :=
  .mk .object
    [(("SECID").toList, ofx_secid),
     (("CURRENCY").toList, ofx_currency)]
    [(("SECNAME").toList, .string),
     (("TICKER").toList, .string),
     (("FIID").toList, .string),
     (("RATING").toList, .string),
     (("UNITPRICE").toList, .number),
     (("DTASOF").toList, .datetime),
     (("MEMO").toList, .string)]

def ofx_seclistmsgsrsv1_seclist_debtinfo : ofx_cont :=
  .mk .object
    [(("SECINFO").toList, ofx_secinfo)]
    [(("PARVALUE").toList, .number),
     (("DEBTTYPE").toList, .string),
     (("DEBTCLASS").toList, .string),
     (("COUPONRT").toList, .number),
     (("DTCOUPON").toList, .datetime),
     (("COUPONFREQ").toList, .datetime),
     (("CALLPRICE").toList, .number),
     (("YIELDTOCALL").toList, .number),
     (("DTCALL").toList, .datetime),
     (("CALLTYPE").toList, .string),
     (("YIELDTOMAT").toList, .string),
     (("DTMAT").toList, .datetime),
     (("ASSETCLASS").toList, .string),
     (("FIASSETCLASS").toList, .string)]

def ofx_mfassetclass_portion : ofx_cont :=
  .mk .object
    []
    [(("ASSETCLASS").toList, .string),
     (("PERCENT").toList, .number)]

def ofx_mfassetclass : ofx_cont :=
  .mk .object
    [(("PORTION").toList, ofx_mfassetclass_portion)]
    []

def ofx_fimfassetclass_portion : ofx_cont :=
  .mk .object
    []
    [(("FIASSETCLASS").toList, .string),
     (("PERCENT").toList, .number)]

def ofx_fimfassetclass : ofx_cont :=
  .mk .object
    [(("FIPORTION").toList, ofx_fimfassetclass_portion)]
    []

def ofx_seclistmsgsrsv1_seclist_mfinfo : ofx_cont :=
  .mk .object
    [(("SECINFO").toList, ofx_secinfo),
     (("MFASSETCLASS").toList, ofx_mfassetclass),
     (("FIMFASSETCLASS").toList, ofx_fimfassetclass)]
    [(("MFTYPE").toList, .string),
     (("YIELD").toList, .number),
     (("DTYIELDASOF").toList, .datetime)]

def ofx_seclistmsgsrsv1_seclist : ofx_cont :=
  .mk .object_with_name_in_array
    [(("DEBTINFO").toList, ofx_seclistmsgsrsv1_seclist_debtinfo),
     (("MFINFO").toList, ofx_seclistmsgsrsv1_seclist_mfinfo)]
    []

def ofx_seclistmsgsrsv1 : ofx_cont :=
  .mk .array
    [(("SECLIST").toList, ofx_seclistmsgsrsv1_seclist)]
    []

def ofx_main : ofx_cont :=
  .mk .nothing
    [(("SIGNONMSGSRSV1").toList, ofx_signonmsgsrsv1),
     (("SIGNUPMSGSRSV1").toList, ofx_signupmsgsrsv1),
     (("INVSTMTMSGSRSV1").toList, ofx_invstmtmsgsrsv1),
     (("SECLISTMSGSRSV1").toList, ofx_seclistmsgsrsv1)]
    []

/-- `process_ofx` (src lines 1549-1616).  The result is `none` when the
process aborts inside a handler, otherwise `some (b, doc)` where `b` is the
function's return value and `doc` the document at that point.  Note the
source's failure branch of the loop: after logging "Processing failed." it
returns `true`, the same value as success. -/
def process_ofx (input : List Char) : Option (Bool × JValue) :=
  let st0 : process_ctx := ⟨JValue.obj [], [mk_container (("OFX").toList) ofx_main]⟩
  match iterate_elements input st0 with
  | .abort => none
  | .fail st => some (true, st.doc_)
  | .ok st =>
    match st.ostack_ with
    | [fr] =>
      match handle_close fr.name_ fr.name_ fr.tags_ with
      | (_, done_, _) =>
        -- the frame is popped unconditionally; the stack is then empty
        if done_ then some (true, st.doc_) else some (false, st.doc_)
    | [] => some (true, st.doc_)
    | _ => some (false, st.doc_)

/-- `in.find("<OFX>")` of `main` (src line 1680): the input after the first
occurrence of the root marker, or `none`. -/
def find_marker : List Char → Option (List Char)
  | [] => none
  | c :: rest =>
    if (c :: rest).take 5 = ("<OFX>").toList then some ((c :: rest).drop 5)
    else find_marker rest

/-- What `main` (src lines 1618-1715) observably does with one input. -/
inductive MainOut where
  | emitted (v : JValue)
  | no_output (code : Nat)
  | aborted

/-- `main` (src lines 1666-1711): no root marker is the "Not an OFX file"
failure (exit code 1, nothing emitted); a `process_ofx` returning `true`
serializes and emits the document; `false` emits nothing (exit code 0). -/
def ofx2json (input : List Char) : MainOut :=
  match find_marker input with
  | none => .no_output 1
  | some rest =>
    match process_ofx rest with
    | none => .aborted
    | some (true, doc) => .emitted doc
    | some (false, _) => .no_output 0

/-!
The schema of the spec's §8 close-mismatch scenario (claim C3): a root whose
only child is `A`, `A`'s only child `B`, `B` a container with the single
string leaf `X`.  Serialize modes as in the table above: the root like
`ofx_main`, the others plain objects.
-/

def scenario_cont_B : ofx_cont :=
  .mk .object [] [(("X").toList, .string)]

def scenario_cont_A : ofx_cont :=
  .mk .object [(("B").toList, scenario_cont_B)] []

def scenario_root : ofx_cont :=
  .mk .nothing [(("A").toList, scenario_cont_A)] []

def scenario_state : process_ctx :=
  ⟨JValue.obj [], [mk_container (("OFX").toList) scenario_root]⟩

/-- The integer value of a digit string, accumulated exactly as
`parse_digits` accumulates it. -/
def digits_val (ds : List Char) : Int :=
  ds.foldl (fun a c => a * 10 + ((c.toNat - 48 : Nat) : Int)) 0

/-!  ## Helper lemmas  -/

theorem scan_back_not_found (c : List Char) :
    ∀ l : List (List Char × List Char), (∀ t ∈ l, t.1 ≠ c) →
      scan_back c l = (false, [])
  | [], _ => rfl
  | t :: rest, h => by
    have ht : ¬ t.1 = c := h t (List.mem_cons_self t rest)
    rw [scan_back, if_neg ht]
    exact scan_back_not_found c rest (fun x hx => h x (List.mem_cons_of_mem t hx))

theorem is_digit_facts (c : Char) (h : is_digit c = true) :
    is_ws c = false ∧ c ≠ '-' ∧ c ≠ '+' ∧ c ≠ '.' ∧ c ≠ '[' ∧ c ≠ ']' := by
  simp only [is_digit, Bool.and_eq_true, decide_eq_true_eq] at h
  refine ⟨?_, ?_, ?_, ?_, ?_, ?_⟩
  · rw [← Bool.not_eq_true]
    simp only [is_ws, Bool.or_eq_true, Bool.and_eq_true, decide_eq_true_eq]
    omega
  all_goals
    intro hc
    subst hc
    exact absurd h (by decide)

theorem pdv_spec : ∀ (ds : List Char) (acc : Int) (cnt : Nat) (rest : List Char),
    0 ≤ acc → (∀ c ∈ ds, is_digit c = true) →
    (∀ c, rest.head? = some c → is_digit c = false) →
    parse_digits_var acc cnt (ds ++ rest) =
      (cnt + ds.length, ds.foldl (fun a c => a * 10 + ((c.toNat - 48 : Nat) : Int)) acc, rest)
  | [], acc, cnt, rest, _, _, hrest => by
    cases rest with
    | nil => simp [parse_digits_var]
    | cons c r =>
      have : is_digit c = false := hrest c rfl
      simp [parse_digits_var, this]
  | d :: ds, acc, cnt, rest, hacc, hds, hrest => by
    have hd : is_digit d = true := hds d (List.mem_cons_self d ds)
    have hguard : ¬ (acc * 10 + ((d.toNat - 48 : Nat) : Int) < acc) := by
      have : (0 : Int) ≤ ((d.toNat - 48 : Nat) : Int) := Int.natCast_nonneg _
      omega
    have hacc2 : 0 ≤ acc * 10 + ((d.toNat - 48 : Nat) : Int) := by
      have : (0 : Int) ≤ ((d.toNat - 48 : Nat) : Int) := Int.natCast_nonneg _
      omega
    simp only [List.cons_append, parse_digits_var, hd, if_true, if_neg hguard,
      List.append_eq]
    rw [pdv_spec ds _ (cnt + 1) rest hacc2
      (fun c hc => hds c (List.mem_cons_of_mem d hc)) hrest]
    simp only [List.length_cons, List.foldl_cons]
    have : cnt + 1 + ds.length = cnt + (ds.length + 1) := by omega
    rw [this]

theorem two_digits_of_gt12 (ds : List Char) (hd : ∀ c ∈ ds, is_digit c = true)
    (hgt : 12 < digits_val ds) : 2 ≤ ds.length := by
  match ds with
  | [] => simp [digits_val] at hgt
  | [c] =>
    have := hd c (List.mem_cons_self c [])
    simp only [is_digit, Bool.and_eq_true, decide_eq_true_eq] at this
    simp only [digits_val, List.foldl_cons, List.foldl_nil] at hgt
    omega
  | a :: b :: rest => simp

theorem parse_tz_gt12 (ds : List Char) (hne : ds ≠ [])
    (hd : ∀ c ∈ ds, is_digit c = true) (hgt : 12 < digits_val ds) :
    parse_tz ('[' :: (ds ++ [']'])) = none ∧
    parse_tz ('[' :: '-' :: (ds ++ [']'])) = none := by
  obtain ⟨d, ds2, rfl⟩ : ∃ d ds2, ds = d :: ds2 := by
    cases ds with
    | nil => exact absurd rfl hne
    | cons a b => exact ⟨a, b, rfl⟩
  have hdd := hd d (List.mem_cons_self d ds2)
  obtain ⟨hws, hdash, hplus, _, _, _⟩ := is_digit_facts d hdd
  have hpdv := pdv_spec (d :: ds2) 0 0 [']'] le_rfl hd
    (fun c hc => by cases hc; decide)
  have hlen : ¬ ((d :: ds2).length = 0) := by simp
  constructor
  · rw [parse_tz]
    simp only [List.cons_append, List.dropWhile_cons, hws, Bool.false_eq_true,
      if_false]
    rw [if_neg (by simp [hdash, hplus])]
    rw [parse_tz_digits]
    rw [← List.cons_append, hpdv]
    simp only [List.length_cons]
    rw [if_pos]
    right
    exact hgt
  · rw [parse_tz]
    have : is_ws '-' = false := by decide
    simp only [List.cons_append, List.dropWhile_cons, this, Bool.false_eq_true,
      if_false]
    rw [if_pos (by simp)]
    rw [parse_tz_digits]
    rw [← List.cons_append, hpdv]
    simp only [List.length_cons]
    rw [if_pos]
    right
    exact hgt

theorem parse_datetime_prefix (tail : List Char) (h4 : 4 ≤ tail.length)
    (hhead : tail.head? = some '[') :
    parse_datetime (("20210115120000").toList ++ tail) =
      (match parse_tz tail with
       | none => none
       | some tz => some ⟨⟨121, 0, 15, 12, 0, 0⟩, none, tz⟩) := by
  obtain ⟨c, tail2, rfl⟩ : ∃ c t2, tail = c :: t2 := by
    cases tail with
    | nil => simp at hhead
    | cons a b => exact ⟨a, b, rfl⟩
  have hc : c = '[' := by simpa using hhead
  subst hc
  have h3 : 3 ≤ tail2.length := by simpa using h4
  have hl : (("20210115120000").toList ++ '[' :: tail2).length = tail2.length + 15 := by
    simp
  have pdf4 : ∀ r : List Char, parse_digits_fix 0 4 ('2' :: '0' :: '2' :: '1' :: r) = some (2021, r) := fun _ => rfl
  have pdf01 : ∀ r : List Char, parse_digits_fix 0 2 ('0' :: '1' :: r) = some (1, r) := fun _ => rfl
  have pdf15 : ∀ r : List Char, parse_digits_fix 0 2 ('1' :: '5' :: r) = some (15, r) := fun _ => rfl
  have pdf12 : ∀ r : List Char, parse_digits_fix 0 2 ('1' :: '2' :: r) = some (12, r) := fun _ => rfl
  have pdf00 : ∀ r : List Char, parse_digits_fix 0 2 ('0' :: '0' :: r) = some (0, r) := fun _ => rfl
  rw [parse_datetime]
  rw [hl]
  rw [if_neg (by omega)]
  have hexp : ("20210115120000").toList ++ '[' :: tail2 =
      '2' :: '0' :: '2' :: '1' :: '0' :: '1' :: '1' :: '5' :: '1' :: '2' :: '0' :: '0' :: '0' :: '0' :: '[' :: tail2 := rfl
  rw [hexp]
  simp only [pdf4, pdf01, pdf15, pdf12, pdf00]
  rw [if_pos (show (14:Nat) ≤ tail2.length + 15 by omega),
    if_pos (show (18:Nat) ≤ tail2.length + 15 by omega)]
  rfl

theorem dropWhile_ws_front :
    ∀ (a : List Char) (c : Char) (b : List Char),
      (∀ x ∈ a, is_ws x = true) → is_ws c = false →
      List.dropWhile is_ws (a ++ c :: b) = c :: b
  | [], c, b, _, hc => by simp [List.dropWhile_cons, hc]
  | x :: a, c, b, ha, hc => by
    have hx : is_ws x = true := ha x (List.mem_cons_self x a)
    simp only [List.cons_append, List.dropWhile_cons, hx, if_true]
    exact dropWhile_ws_front a c b (fun y hy => ha y (List.mem_cons_of_mem x hy)) hc

theorem c8_aux (s : List Char) :
    ((parse_bool s = some true) ↔
      ∃ a b, (∀ c ∈ a, is_ws c = true) ∧ (∀ c ∈ b, is_ws c = true) ∧
        (s = a ++ 'Y' :: b ∨ s = a ++ 'y' :: b)) ∧
    ((parse_bool s = some false) ↔
      ∃ a b, (∀ c ∈ a, is_ws c = true) ∧ (∀ c ∈ b, is_ws c = true) ∧
        (s = a ++ 'N' :: b ∨ s = a ++ 'n' :: b)) := by
  have hsplit : s.takeWhile is_ws ++ s.dropWhile is_ws = s :=
    List.takeWhile_append_dropWhile is_ws s
  have htake : ∀ c ∈ s.takeWhile is_ws, is_ws c = true :=
    fun c hc => List.mem_takeWhile_imp hc
  constructor
  · constructor
    · intro h
      rw [parse_bool] at h
      simp only [skip_ws] at h
      cases ht : s.dropWhile is_ws with
      | nil => rw [ht] at h; exact absurd h (by simp)
      | cons c rest =>
        rw [ht] at h
        simp only [] at h
        rw [ht] at hsplit
        by_cases h1 : c = 'Y' ∨ c = 'y'
        · rw [if_pos h1] at h
          by_cases h2 : List.dropWhile is_ws rest = []
          · have hb : ∀ x ∈ rest, is_ws x = true :=
              List.dropWhile_eq_nil_iff.mp h2
            have hs : s = s.takeWhile is_ws ++ c :: rest := hsplit.symm
            refine ⟨s.takeWhile is_ws, rest, htake, hb, ?_⟩
            cases h1 with
            | inl e => exact Or.inl (e ▸ hs)
            | inr e => exact Or.inr (e ▸ hs)
          · rw [if_neg h2] at h; exact absurd h (by simp)
        · rw [if_neg h1] at h
          by_cases h3 : c = 'N' ∨ c = 'n'
          · rw [if_pos h3] at h
            by_cases h2 : List.dropWhile is_ws rest = []
            · rw [if_pos h2] at h; exact absurd h (by simp)
            · rw [if_neg h2] at h; exact absurd h (by simp)
          · rw [if_neg h3] at h; exact absurd h (by simp)
    · rintro ⟨a, b, ha, hb, hor⟩
      have hb2 : List.dropWhile is_ws b = [] := List.dropWhile_eq_nil_iff.mpr hb
      cases hor with
      | inl e =>
        subst e
        rw [parse_bool]
        simp only [skip_ws]
        rw [dropWhile_ws_front a 'Y' b ha (by decide)]
        simp +decide [hb2]
      | inr e =>
        subst e
        rw [parse_bool]
        simp only [skip_ws]
        rw [dropWhile_ws_front a 'y' b ha (by decide)]
        simp +decide [hb2]
  · constructor
    · intro h
      rw [parse_bool] at h
      simp only [skip_ws] at h
      cases ht : s.dropWhile is_ws with
      | nil => rw [ht] at h; exact absurd h (by simp)
      | cons c rest =>
        rw [ht] at h
        simp only [] at h
        rw [ht] at hsplit
        by_cases h1 : c = 'Y' ∨ c = 'y'
        · rw [if_pos h1] at h
          by_cases h2 : List.dropWhile is_ws rest = []
          · rw [if_pos h2] at h; exact absurd h (by simp)
          · rw [if_neg h2] at h; exact absurd h (by simp)
        · rw [if_neg h1] at h
          by_cases h3 : c = 'N' ∨ c = 'n'
          · rw [if_pos h3] at h
            by_cases h2 : List.dropWhile is_ws rest = []
            · have hb : ∀ x ∈ rest, is_ws x = true :=
                List.dropWhile_eq_nil_iff.mp h2
              have hs : s = s.takeWhile is_ws ++ c :: rest := hsplit.symm
              refine ⟨s.takeWhile is_ws, rest, htake, hb, ?_⟩
              cases h3 with
              | inl e => exact Or.inl (e ▸ hs)
              | inr e => exact Or.inr (e ▸ hs)
            · rw [if_neg h2] at h; exact absurd h (by simp)
          · rw [if_neg h3] at h; exact absurd h (by simp)
    · rintro ⟨a, b, ha, hb, hor⟩
      have hb2 : List.dropWhile is_ws b = [] := List.dropWhile_eq_nil_iff.mpr hb
      cases hor with
      | inl e =>
        subst e
        rw [parse_bool]
        simp only [skip_ws]
        rw [dropWhile_ws_front a 'N' b ha (by decide)]
        simp +decide [hb2]
      | inr e =>
        subst e
        rw [parse_bool]
        simp only [skip_ws]
        rw [dropWhile_ws_front a 'n' b ha (by decide)]
        simp +decide [hb2]

theorem len_dropWhile_le (p : Char → Bool) (l : List Char) :
    (l.dropWhile p).length ≤ l.length :=
  (List.dropWhile_sublist p).length_le

theorem len_skip_ws_le (l : List Char) : ((skip_ws l).2).length ≤ l.length :=
  len_dropWhile_le is_ws l

theorem len_tail_le (l : List Char) : l.tail.length ≤ l.length := by
  cases l <;> simp

theorem read_name_le (txt l n r : List Char) (h : read_name txt l = some (n, r)) :
    r.length ≤ l.length := by
  rw [read_name] at h
  split at h
  · exact absurd h (by simp)
  · cases h
    exact len_dropWhile_le _ l

theorem read_attrval_le (q : Bool) (l n r : List Char)
    (h : read_attrval q l = some (n, r)) : r.length ≤ l.length := by
  rw [read_attrval] at h
  dsimp only at h
  split at h
  · split at h
    · exact absurd h (by simp)
    · split at h
      · exact absurd h (by simp)
      · cases h
        exact len_dropWhile_le _ l
  · exact read_name_le [] l n r h

theorem read_text_le (l t r : List Char) (h : read_text l = some (t, r)) :
    r.length ≤ l.length := by
  rw [read_text] at h
  split at h
  · exact absurd h (by simp)
  · cases h
    exact le_trans (len_dropWhile_le _ _) (len_skip_ws_le l)

theorem attr_value_step_le (s v r2 : List Char)
    (h : attr_value_step s = some (v, r2)) : r2.length ≤ s.length := by
  rw [attr_value_step] at h
  dsimp only at h
  split at h
  · split at h
    · exact absurd h (by simp)
    · split at h
      · exact absurd h (by simp)
      · rename_i v3 r3 hrav
        have h3 : r3.length ≤ s.length := by
          refine le_trans (read_attrval_le _ _ v3 r3 hrav) ?_
          refine le_trans ?_ (len_tail_le s)
          split
          · exact le_trans (len_tail_le _) (len_skip_ws_le s.tail)
          · exact len_skip_ws_le s.tail
        split at h
        · split at h
          · cases h
            rename_i r4 _
            refine le_trans ?_ h3
            simp
          · exact absurd h (by simp)
        · cases h
          exact h3
  · cases h
    exact le_rfl

theorem attr_loop_le : ∀ (fuel : Nat) (acc res : List (List Char × List Char))
    (l r : List Char), attr_loop fuel acc l = some (res, r) →
    r.length ≤ l.length := by
  intro fuel
  induction fuel with
  | zero => intro acc res l r h; exact absurd h (by simp [attr_loop])
  | succ fuel ih =>
    intro acc res l r h
    rw [attr_loop] at h
    dsimp only at h
    split at h
    · cases h; exact le_rfl
    · split at h
      · exact absurd h (by simp)
      · rename_i at_name r1 hrn
        split at h
        · exact absurd h (by simp)
        · split at h
          · exact absurd h (by simp)
          · rename_i at_val r2 hstep
            have hr1 : r1.length ≤ l.length := read_name_le [] l at_name r1 hrn
            have hr2 : r2.length ≤ l.length :=
              le_trans (attr_value_step_le _ at_val r2 hstep)
                (le_trans (len_skip_ws_le r1) hr1)
            have hs4 : ((skip_ws r2).2).length ≤ l.length :=
              le_trans (len_skip_ws_le r2) hr2
            split at h
            · cases h; simp
            · exact le_trans (ih _ res _ r h) hs4

theorem next_element_progress (s rest : List Char) (ev : Ev) (simple : Bool)
    (h : next_element s = some (some (ev, simple), rest)) :
    rest.length < s.length := by
  rw [next_element] at h
  simp only [skip_ws] at h
  split at h
  · exact absurd h (by simp)
  · rename_i c rest1 hdrop
    have hlt : rest1.length < s.length := by
      have h0 : (c :: rest1).length ≤ s.length := by
        rw [← hdrop]; exact len_dropWhile_le is_ws s
      simp at h0
      omega
    split at h
    · -- c = '<'
      split at h
      · exact absurd h (by simp)
      · have hs2le : (rest1.dropWhile is_ws).length ≤ rest1.length :=
          len_dropWhile_le is_ws rest1
        split at h
        · -- close event
          split at h
          · exact absurd h (by simp)
          · have hs3le : ((rest1.dropWhile is_ws).tail.dropWhile is_ws).length ≤
                rest1.length := by
              refine le_trans (len_dropWhile_le _ _) ?_
              exact le_trans (len_tail_le _) hs2le
            split at h
            · exact absurd h (by simp)
            · rename_i el_name s4 hrn
              have hs4le : s4.length ≤ rest1.length :=
                le_trans (read_name_le _ _ _ _ hrn) hs3le
              split at h
              · rename_i s6 hs6
                cases h
                have h1 : ('>' :: rest).length ≤ s4.length := by
                  rw [← hs6]; exact len_dropWhile_le is_ws s4
                simp at h1
                omega
              · exact absurd h (by simp)
        · -- open event
          split at h
          · exact absurd h (by simp)
          · rename_i el_name s4 hrn
            have hs4le : s4.length ≤ rest1.length :=
              le_trans (read_name_le _ _ _ _ hrn) hs2le
            split at h
            · exact absurd h (by simp)
            · rename_i el_attrs s6 hattrs
              have hs6le : s6.length ≤ s4.length := by
                revert hattrs
                split
                · intro hx
                  exact le_trans (attr_loop_le _ _ _ _ _ hx) (len_dropWhile_le is_ws s4)
                · intro hx
                  cases hx
                  exact len_dropWhile_le is_ws s4
              split at h
              · exact absurd h (by simp)
              · split at h
                · rename_i s9 hs9
                  have hs7le : (if s6.head? = some '/' then s6.tail else s6).length ≤
                      s6.length := by
                    split
                    · exact len_tail_le s6
                    · exact le_rfl
                  have hs9le : ('>' :: s9).length ≤ s6.length := by
                    rw [← hs9]
                    exact le_trans (len_dropWhile_le is_ws _) hs7le
                  simp at hs9le
                  split at h
                  · cases h
                    omega
                  · split at h
                    · exact absurd h (by simp)
                    · rename_i txt s10 hrt
                      cases h
                      have h2 : rest.length ≤ s9.length := by
                        have := read_text_le s9 txt rest hrt
                        exact this
                      omega
                · exact absurd h (by simp)
    · exact absurd h (by simp)

theorem iterate_fuel_inv (k : Nat) : ∀ (s : List Char), s.length ≤ k →
    ∀ (n m : Nat) (st : process_ctx), s.length < n → s.length < m →
    iterate_fuel n s st = iterate_fuel m s st := by
  induction k with
  | zero =>
    intro s hs n m st hn hm
    cases n with
    | zero => omega
    | succ n2 =>
      cases m with
      | zero => omega
      | succ m2 =>
        simp only [iterate_fuel]
        cases hne : next_element s with
        | none => rfl
        | some p =>
          cases p with
          | mk o r =>
            cases o with
            | none => rfl
            | some eb =>
              cases eb with
              | mk ev simple =>
                exact absurd (next_element_progress s r ev simple hne) (by omega)
  | succ k ih =>
    intro s hs n m st hn hm
    cases n with
    | zero => omega
    | succ n2 =>
      cases m with
      | zero => omega
      | succ m2 =>
        simp only [iterate_fuel]
        cases hne : next_element s with
        | none => rfl
        | some p =>
          cases p with
          | mk o r =>
            cases o with
            | none => rfl
            | some eb =>
              cases eb with
              | mk ev simple =>
                have hlt : r.length < s.length :=
                  next_element_progress s r ev simple hne
                by_cases hname : ev.name = ("/OFX").toList
                · simp [hname]
                · simp only [if_neg hname]
                  cases hel : handle_element st ev with
                  | err st2 => rfl
                  | abort => rfl
                  | ok st2 =>
                    cases simple with
                    | false =>
                      exact ih r (by omega) n2 m2 st2 (by omega) (by omega)
                    | true =>
                      dsimp only
                      cases hel2 : handle_element st2 ⟨'/' :: ev.name, ev.attrs, []⟩ with
                      | err st3 => rfl
                      | abort => rfl
                      | ok st3 =>
                        exact ih r (by omega) n2 m2 st3 (by omega) (by omega)

/-!  ## The claims  -/

/-- C1: the claim says a `StructuralParseError` or `CloseMismatchError` in
the tokenizer/builder loop surfaces as a single failure result with no
output tree.  The code violates it: `process_ofx` logs "Processing failed."
and then returns `true` on exactly those failures, so `main` serializes and
emits the (partial) tree.  Evaluated here on a structural parse failure
(input exhausted right after `<`) and on a close-mismatch failure: both
emit the document. -/
theorem c1_failure_emits_tree :
    ofx2json (("x<OFX><").toList) = MainOut.emitted (JValue.obj []) ∧
    ofx2json (("<OFX><SIGNONMSGSRSV1></SONRS>").toList) =
      MainOut.emitted (JValue.obj []) :=
  ⟨rfl, rfl⟩

/-- C2: the claim says `parse_number` fails on twenty nines by the overflow
guard.  The code violates it: the accumulator is a `double` (here `Rat`;
monotone rounding makes the guard equally unreachable in both), the guard
`r < pr` never fires, and the parse succeeds. -/
theorem c2_overflow_guard_unreachable :
    (parse_number (("99999999999999999999").toList)).isSome = true := by
  simp +decide [parse_number, pn_loop, skip_ws, is_digit, is_ws, List.dropWhile]
  norm_num

/-- C3: a close event that matches neither an entry of the pending-tag list
nor the container's own name empties the list and is a hard mismatch
failure; in the spec's §8 scenario (`<A><B><X>hi</X></A>` under
root→A→B with leaf X) the close of `A` against the open container `B`
is that failure, and `B` is still on the stack, not closed, at the point
of failure. -/
theorem c3_close_mismatch :
    (∀ (c name : List Char) (tags : List (List Char × List Char)),
        (∀ t ∈ tags, t.1 ≠ c) → c ≠ name →
        handle_close c name tags = (false, false, [])) ∧
    iterate_elements (("<A><B><X>hi</X></A>").toList) scenario_state =
      IterRes.fail ⟨JValue.obj [],
        [⟨("B").toList, scenario_cont_B,
          some (JValue.obj [(("x").toList, JValue.str (("hi").toList))]), []⟩,
         ⟨("A").toList, scenario_cont_A, some (JValue.obj []), []⟩,
         ⟨("OFX").toList, scenario_root, none, []⟩]⟩ := by
  constructor
  · intro c name tags hmem hne
    have hs : scan_back c tags.reverse = (false, []) :=
      scan_back_not_found c tags.reverse
        (fun t ht => hmem t (List.mem_reverse.mp ht))
    rw [handle_close, hs]
    simp [hne]
  · rfl

theorem c3_close_mismatch_witness :
    handle_close (("A").toList) (("B").toList) [] = (false, false, []) :=
  c3_close_mismatch.1 (("A").toList) (("B").toList) []
    (fun t ht => absurd ht (List.not_mem_nil t)) (by decide)

/-- C4: the tokenizer stops the whole scan successfully on a close event
named `/OFX` without delivering it to the builder (first conjunct, for any
input and any builder state); afterwards the driver resolves the root
container's close directly when it is the only frame left (third conjunct,
success on `</OFX>` alone), and frames still on the stack are a hard
failure (second conjunct: `<SIGNONMSGSRSV1></OFX>` leaves two frames and
`process_ofx` returns `false`). -/
theorem c4_root_close_stop :
    (∀ (s : List Char) (st : process_ctx) (ev : Ev) (simple : Bool)
        (rest : List Char),
        next_element s = some (some (ev, simple), rest) →
        ev.name = ("/OFX").toList →
        iterate_elements s st = IterRes.ok st) ∧
    process_ofx (("<SIGNONMSGSRSV1></OFX>").toList) = some (false, JValue.obj []) ∧
    process_ofx (("</OFX>").toList) = some (true, JValue.obj []) := by
  refine ⟨?_, rfl, rfl⟩
  intro s st ev simple rest h hname
  simp [iterate_elements, iterate_fuel, h, hname]

theorem c4_root_close_stop_witness :
    iterate_elements (("</OFX>x").toList) scenario_state =
      IterRes.ok scenario_state :=
  c4_root_close_stop.1 (("</OFX>x").toList) scenario_state
    ⟨("/OFX").toList, [], []⟩ false (("x").toList) rfl rfl

/-- C5: a schema-declared datetime leaf whose text fails to decode is
attached as a plain string member holding the raw text, keyed by the
lower-cased tag name, the pair is appended to the pending-tag list, and the
handler continues (`HRes.ok`). -/
theorem c5_datetime_degrade (st : process_ctx) (fr : ofx_container)
    (rest : List ofx_container) (element text : List Char)
    (attrs : List (List Char × List Char)) (ms : List (List Char × JValue))
    (hstack : st.ostack_ = fr :: rest)
    (hsub : assoc_find fr.cont_.sub element = none)
    (htag : assoc_find fr.cont_.tags element = some tag_fmt.datetime)
    (hfail : parse_datetime text = none)
    (hval : fr.val = some (JValue.obj ms)) :
    handle_tag_event st element attrs text =
      HRes.ok ⟨st.doc_,
        { fr with
            val := some (JValue.obj (ms ++ [(str_lower element, JValue.str text)])),
            tags_ := fr.tags_ ++ [(element, text)] } :: rest⟩ := by
  obtain ⟨doc, stack⟩ := st
  simp only at hstack
  subst hstack
  simp [handle_tag_event, hsub, htag, add_datetime_render, hfail, add_value,
    add_to_stack, hval, push_pending, add_member]

theorem c5_datetime_degrade_witness :
    handle_tag_event
        ⟨JValue.obj [], [⟨("SONRS").toList, ofx_signon_sonrs, some (JValue.obj []), []⟩]⟩
        (("DTSERVER").toList) [] (("xx").toList) =
      HRes.ok ⟨JValue.obj [],
        [⟨("SONRS").toList, ofx_signon_sonrs,
          some (JValue.obj [(("dtserver").toList, JValue.str (("xx").toList))]),
          [((("DTSERVER").toList), (("xx").toList))]⟩]⟩ :=
  c5_datetime_degrade
    ⟨JValue.obj [], [⟨("SONRS").toList, ofx_signon_sonrs, some (JValue.obj []), []⟩]⟩
    ⟨("SONRS").toList, ofx_signon_sonrs, some (JValue.obj []), []⟩
    [] (("DTSERVER").toList) (("xx").toList) [] []
    rfl rfl rfl rfl rfl

/-- C6: on an open event whose tag is not a child container of the current
container, whenever the handler completes (no process abort), the pair of
tag and raw text has been appended to that container's pending-tag list,
whether the tag is a declared leaf or unrecognized. -/
theorem c6_pending_append (st st2 : process_ctx) (fr : ofx_container)
    (rest : List ofx_container) (element : List Char)
    (attrs : List (List Char × List Char)) (text : List Char)
    (hstack : st.ostack_ = fr :: rest)
    (hsub : assoc_find fr.cont_.sub element = none)
    (hok : handle_tag_event st element attrs text = HRes.ok st2) :
    ∃ fr2 rest2, st2.ostack_ = fr2 :: rest2 ∧ fr2.name_ = fr.name_ ∧
      fr2.cont_ = fr.cont_ ∧ fr2.tags_ = fr.tags_ ++ [(element, text)] := by
  obtain ⟨doc, stack⟩ := st
  simp only at hstack
  subst hstack
  simp only [handle_tag_event, hsub] at hok
  cases htag : assoc_find fr.cont_.tags element with
  | none =>
    rw [htag] at hok
    simp only [push_pending] at hok
    cases hok
    exact ⟨_, _, rfl, rfl, rfl, rfl⟩
  | some fmt =>
    rw [htag] at hok
    cases fmt with
    | string =>
      cases hval : fr.val with
      | some v =>
        simp only [add_value, add_to_stack, hval, push_pending] at hok
        cases hok
        exact ⟨_, _, rfl, rfl, rfl, rfl⟩
      | none =>
        simp only [add_value, add_to_stack, hval, push_pending] at hok
        cases hok
        exact ⟨_, _, rfl, rfl, rfl, rfl⟩
    | number =>
      cases hnum : parse_number text with
      | none => rw [hnum] at hok; cases hok
      | some v =>
        rw [hnum] at hok
        cases hval : fr.val with
        | some v2 =>
          simp only [add_value, add_to_stack, hval, push_pending] at hok
          cases hok
          exact ⟨_, _, rfl, rfl, rfl, rfl⟩
        | none =>
          simp only [add_value, add_to_stack, hval, push_pending] at hok
          cases hok
          exact ⟨_, _, rfl, rfl, rfl, rfl⟩
    | boolean =>
      cases hb : parse_bool text with
      | none => rw [hb] at hok; cases hok
      | some v =>
        rw [hb] at hok
        cases hval : fr.val with
        | some v2 =>
          simp only [add_value, add_to_stack, hval, push_pending] at hok
          cases hok
          exact ⟨_, _, rfl, rfl, rfl, rfl⟩
        | none =>
          simp only [add_value, add_to_stack, hval, push_pending] at hok
          cases hok
          exact ⟨_, _, rfl, rfl, rfl, rfl⟩
    | datetime =>
      cases hval : fr.val with
      | some v2 =>
        simp only [add_value, add_to_stack, hval, push_pending] at hok
        cases hok
        exact ⟨_, _, rfl, rfl, rfl, rfl⟩
      | none =>
        simp only [add_value, add_to_stack, hval, push_pending] at hok
        cases hok
        exact ⟨_, _, rfl, rfl, rfl, rfl⟩

theorem c6_pending_append_witness :
    ∃ fr2 rest2,
      (⟨JValue.obj [],
        [⟨("OFX").toList, scenario_root, none,
          [((("FOO").toList), (("t").toList))]⟩]⟩ : process_ctx).ostack_ =
        fr2 :: rest2 ∧
      fr2.name_ = (mk_container (("OFX").toList) scenario_root).name_ ∧
      fr2.cont_ = (mk_container (("OFX").toList) scenario_root).cont_ ∧
      fr2.tags_ = (mk_container (("OFX").toList) scenario_root).tags_ ++
        [((("FOO").toList), (("t").toList))] :=
  c6_pending_append scenario_state _ _ _ (("FOO").toList) [] (("t").toList)
    rfl rfl rfl

/-- C7 (amended): `"20210115120000[-5:EST]"` decodes to the calendar fields
2021-01-15 12:00:00 (`tm_year` 121, `tm_mon` 0) with timezone offset −300
minutes and renders as `"2021-01-15T12:00:00-05"` (the spec's §4.1 rule:
`±HH` alone when the offset's minutes are zero); `"20210115"` decodes to
midnight with offset 0 and renders with a trailing `Z`; and any bracketed
timezone hour of magnitude greater than 12, with either sign, is a decode
failure. -/
theorem c7_datetime_amended :
    parse_datetime (("20210115120000[-5:EST]").toList) =
      some ⟨⟨121, 0, 15, 12, 0, 0⟩, none, -300⟩ ∧
    add_datetime_render (("20210115120000[-5:EST]").toList) =
      ("2021-01-15T12:00:00-05").toList ∧
    parse_datetime (("20210115").toList) = some ⟨⟨121, 0, 15, 0, 0, 0⟩, none, 0⟩ ∧
    add_datetime_render (("20210115").toList) = ("2021-01-15T00:00:00Z").toList ∧
    ∀ ds : List Char, ds ≠ [] → (∀ c ∈ ds, is_digit c = true) →
      12 < digits_val ds →
      parse_datetime (("20210115120000[").toList ++ ds ++ (("]").toList)) = none ∧
      parse_datetime (("20210115120000[-").toList ++ ds ++ (("]").toList)) = none := by
  refine ⟨rfl, rfl, rfl, rfl, ?_⟩
  intro ds hne hd hgt
  have h2 : 2 ≤ ds.length := two_digits_of_gt12 ds hd hgt
  obtain ⟨htz1, htz2⟩ := parse_tz_gt12 ds hne hd hgt
  constructor
  · have hsplit : ("20210115120000[").toList ++ ds ++ (("]").toList) =
        ("20210115120000").toList ++ ('[' :: (ds ++ [']'])) := by
      simp
    rw [hsplit, parse_datetime_prefix ('[' :: (ds ++ [']']))
      (by simp; omega) rfl, htz1]
  · have hsplit : ("20210115120000[-").toList ++ ds ++ (("]").toList) =
        ("20210115120000").toList ++ ('[' :: '-' :: (ds ++ [']'])) := by
      simp
    rw [hsplit, parse_datetime_prefix ('[' :: '-' :: (ds ++ [']']))
      (by simp; omega) rfl, htz2]

/-- C7: counterexample to the claim as stated.  The decoded offset of
`"20210115120000[-5:EST]"` has zero minutes, so `add_datetime` renders only
the signed hour (`%+03d`), giving `"2021-01-15T12:00:00-05"` and not the
claimed `"2021-01-15T12:00:00-05:00"`. -/
theorem c7_render_counterexample :
    add_datetime_render (("20210115120000[-5:EST]").toList) ≠
      ("2021-01-15T12:00:00-05:00").toList := by decide

theorem c7_datetime_amended_witness :
    parse_datetime (("20210115120000[").toList ++ (("13").toList) ++ (("]").toList)) = none ∧
    parse_datetime (("20210115120000[-").toList ++ (("13").toList) ++ (("]").toList)) = none :=
  c7_datetime_amended.2.2.2.2 (("13").toList) (by decide) (by decide) (by decide)

/-- C8: `parse_bool` returns `true` exactly when the input is whitespace,
then `Y` or `y`, then whitespace, returns `false` exactly when the middle
character is `N` or `n`, and fails otherwise; in particular `"y"` is true,
`"N  "` is false and `"yes"` fails. -/
theorem c8_parse_bool_spec :
    (∀ s : List Char,
      ((parse_bool s = some true) ↔
        ∃ a b, (∀ c ∈ a, is_ws c = true) ∧ (∀ c ∈ b, is_ws c = true) ∧
          (s = a ++ 'Y' :: b ∨ s = a ++ 'y' :: b)) ∧
      ((parse_bool s = some false) ↔
        ∃ a b, (∀ c ∈ a, is_ws c = true) ∧ (∀ c ∈ b, is_ws c = true) ∧
          (s = a ++ 'N' :: b ∨ s = a ++ 'n' :: b))) ∧
    parse_bool (("y").toList) = some true ∧
    parse_bool (("N  ").toList) = some false ∧
    parse_bool (("yes").toList) = none :=
  ⟨c8_aux, rfl, rfl, rfl⟩

theorem c8_parse_bool_spec_witness :
    parse_bool (("  y ").toList) = some true :=
  ((c8_parse_bool_spec.1 (("  y ").toList)).1).mpr
    ⟨[' ', ' '], [' '], by decide, by decide, Or.inr rfl⟩

/-- C10: `parse_number` succeeds with value 0 on inputs holding no digit at
all, as long as a decimal point is present: `"."`, `"-."`, and `" +. "`
all decode to 0. -/
theorem c10_no_digit_dot_inputs :
    parse_number ((".").toList) = some 0 ∧
    parse_number (("-.").toList) = some 0 ∧
    parse_number ((" +. ").toList) = some 0 := by
  refine ⟨?_, ?_, ?_⟩ <;>
    simp +decide [parse_number, pn_loop, skip_ws, is_digit, is_ws, List.dropWhile]


/-- C9: the parsing operation always terminates on a finite buffer: each
tokenizer iteration strictly consumes input (first conjunct), and the
tokenizer/builder loop is insensitive to any fuel beyond the input length
(second conjunct) — `iterate_elements` computes the loop's fixpoint within
`length + 1` iterations, so the whole run, `process_ofx` included, is a
total function of the input. -/
theorem c9_termination :
    (∀ (s rest : List Char) (ev : Ev) (simple : Bool),
        next_element s = some (some (ev, simple), rest) →
        rest.length < s.length) ∧
    (∀ (n m : Nat) (s : List Char) (st : process_ctx),
        s.length < n → s.length < m →
        iterate_fuel n s st = iterate_fuel m s st) := by
  constructor
  · intro s rest ev simple h
    exact next_element_progress s rest ev simple h
  · intro n m s st hn hm
    exact iterate_fuel_inv s.length s le_rfl n m st hn hm

theorem c9_termination_witness :
    (("<A>").toList).length < (("<A>x<A>").toList).length ∧
    iterate_fuel 100 (("<A>hi</A>").toList) scenario_state =
      iterate_fuel 200 (("<A>hi</A>").toList) scenario_state :=
  ⟨c9_termination.1 (("<A>x<A>").toList) (("<A>").toList)
      ⟨("A").toList, [], ("x").toList⟩ false rfl,
    c9_termination.2 100 200 (("<A>hi</A>").toList) scenario_state
      (by decide) (by decide)⟩

end Ofx
